import Mathlib

/-!
Shallow embedding of `desktop/libs/hadoop/src/hadoop/fs/webhdfs.py` (the WebHDFS
client of the hue repository) and proofs about the claims of its design spec.

The Python module is stateless apart from the per-thread identity; every method
builds a parameter mapping, issues one HTTP call through `self._root` and
post-processes the decoded response.  We embed each method as a pure function
taking the active identity (`user`), the method arguments, and the server side
of the interaction (either the decoded response for the one request the method
issues, or a function from requests to responses); the function returns the
list of requests the method issued together with its outcome, where a Python
exception becomes the `Except.error` branch.
-/

set_option autoImplicit false

deriving instance DecidableEq for Except

namespace WebHdfsModel

/-- errno values used by the source (`errno.ENOENT`, `errno.EISDIR`, `errno.EINVAL`). -/
def ENOENT : Nat := 2

/-- `errno.EISDIR` -/
def EISDIR : Nat := 21

/-- `errno.EINVAL` -/
def EINVAL : Nat := 22

/-- Model of the `HTTPError` carried as parent of a `WebHdfsException`:
`code` is the HTTP status, `location` is `headers.getheader("location")`
(`none` when the response carries no location header). -/
structure HttpError where
  code : Nat
  location : Option String
deriving DecidableEq, Repr

/-- Model of `hadoop.fs.exceptions.WebHdfsException`: the message, the wrapped
parent exception as returned by `get_parent_ex()`, and the server-reported
exception class name `server_exc` (`none` when the server reported none). -/
structure WebHdfsException where
  message : String
  parent : Option HttpError
  server_exc : Option String
deriving DecidableEq, Repr

/-- The Python exceptions the embedded code can raise. `ioError eo msg` models
`IOError(errno, msg)` (with `eo = none` for the one-argument `IOError(msg)`
form whose `errno` attribute is `None`); `keyError`/`typeError` model the
corresponding built-ins; `webhdfs` wraps a `WebHdfsException`. -/
inductive PyExc where
  | ioError (errno : Option Nat) (msg : String)
  | keyError (key : String)
  | typeError (msg : String)
  | webhdfs (ex : WebHdfsException)
deriving DecidableEq, Repr

/-- A decoded JSON response value, as Python sees it after `json_decode`.
Enough structure for the responses the claims exercise: `result["boolean"]`
subscripting and Python truthiness. -/
inductive PyVal where
  | vNone
  | vBool (b : Bool)
  | vStr (s : String)
  | vDict (entries : List (String × PyVal))

/-- Python truthiness: `None` and `False` are falsy, a string is truthy iff
non-empty, a dict is truthy iff non-empty. -/
def PyVal.truthy : PyVal → Bool
  | .vNone => false
  | .vBool b => b
  | .vStr s => !s.isEmpty
  | .vDict es => !es.isEmpty

/-- Python subscripting `v[k]`: a hit in a dict returns the value, a miss
raises `KeyError`, subscripting a non-dict raises `TypeError`. -/
def PyVal.subscript : PyVal → String → Except PyExc PyVal
  | .vDict es, k =>
    match es.lookup k with
    | some v => .ok v
    | none => .error (.keyError k)
  | _, _ => .error (.typeError "unsubscriptable value")

/-- A numeric-or-string Python value, the two representations `safe_octal`
accepts for permissions (permissions are non-negative, so the numeric case is
a `Nat`). -/
inductive PyNumOrStr where
  | num (n : Nat)
  | str (s : String)
deriving DecidableEq, Repr

/-- Octal digits of `n`, most significant first; fuel-structured so it reduces
definitionally (`fuel ≥ n` suffices). -/
def octDigitsAux : Nat → Nat → List Char → List Char
  | 0, _, acc => acc
  | _ + 1, 0, acc => acc
  | fuel + 1, n, acc => octDigitsAux fuel (n / 8) (Char.ofNat (48 + n % 8) :: acc)

/-- Python 2 `oct`: `oct(0) = "0"`, and otherwise a leading `"0"` followed by
the octal digits (`oct(493) = "0755"`). -/
def pyOct (n : Nat) : String :=
  if n = 0 then "0" else "0" ++ String.mk (octDigitsAux n n [])

/-- `safe_octal` from webhdfs.py: `oct(octal_value)` when the value is numeric,
and on the `TypeError` a string raises, `str(octal_value)`, i.e. the string
unchanged. -/
def safe_octal : PyNumOrStr → String
  | .num n => pyOct n
  | .str s => s

/-- Splitting a character list on the path separator (structural helper for
`normpath`; `cur` is the reversed current component). -/
def splitSlashAux : List Char → List Char → List String
  | [], cur => [String.mk cur.reverse]
  | c :: cs, cur =>
    if c = '/' then String.mk cur.reverse :: splitSlashAux cs []
    else splitSlashAux cs (c :: cur)

/-- Joining components back with the separator (structural helper for
`normpath`). -/
def joinSlash : List String → String
  | [] => ""
  | [c] => c
  | c :: cs => c ++ "/" ++ joinSlash cs

/-- Modelled from the spec: `Hdfs.normpath` (hadoop/fs/hadoopfs.py, not under
src/).  §4.1 Path Encoder: collapse `.` and `..` components, a single leading
separator, no trailing separator except at the root. -/
def normpath (path : String) : String :=
  let step : List String → String → List String := fun acc c =>
    if c = "" ∨ c = "." then acc
    else if c = ".." then acc.dropLast
    else acc ++ [c]
  "/" ++ joinSlash ((splitSlashAux path.toList []).foldl step [])

/-- Modelled from the spec: `encode_fs_path` (hadoop/fs/hadoopfs.py, not under
src/).  §4.1 Path Encoder: percent-encode the path for safe embedding in a URL,
leaving the separator (and unreserved characters) unencoded; idempotent on
already-encoded paths handled by the callers in webhdfs.py passing normalized
paths. ASCII model: a non-unreserved ASCII character becomes `%XX`. -/
def encodeChar (c : Char) : String :=
  if c.isAlphanum ∨ c = '/' ∨ c = '-' ∨ c = '_' ∨ c = '.' ∨ c = '~' ∨ c = '%' ∨ 127 < c.toNat
  then String.singleton c
  else
    let hex : Nat → Char := fun d => if d < 10 then Char.ofNat (48 + d) else Char.ofNat (55 + d)
    String.mk ['%', hex (c.toNat / 16 % 16), hex (c.toNat % 16)]

/-- Modelled from the spec: see `encodeChar`. -/
def encode_fs_path (path : String) : String :=
  String.join ((path.toList).map encodeChar)

/-- One HTTP request as issued through a `Resource`: the HTTP method, the base
url of the client the request goes through (empty for the primary service
client), the path appended to it, the query parameters, the payload, and
whether the response is JSON-decoded. -/
structure Request where
  method : String
  url : String
  path : String
  params : List (String × String)
  data : Option String
  json_decode : Bool
deriving DecidableEq, Repr

namespace WebHdfs

/-- `WebHdfs._getparams`: a fresh mapping `{"user.name": user}` built on every
call from the thread-local identity. -/
def _getparams (user : String) : List (String × String) :=
  [("user.name", user)]

/-- `WebHdfs._delete(path, recursive)`: build the DELETE request, then check
`result["boolean"]` of the decoded response `result`; a falsy value raises
`IOError("Delete failed: %s" % path)`.  Returns the issued request and the
outcome (the HTTP transport is external; `result` is the decoded response of
the one call the method makes). -/
def _delete (user path : String) (recursive : Bool) (result : PyVal) :
    List Request × Except PyExc Unit :=
  let p := encode_fs_path (normpath path)
  let params := _getparams user ++
    [("op", "DELETE"), ("recursive", if recursive then "true" else "false")]
  ([⟨"DELETE", "", p, params, none, true⟩],
    match result.subscript "boolean" with
    | .error e => .error e
    | .ok b =>
      if b.truthy then .ok ()
      else .error (.ioError none ("Delete failed: " ++ p)))

/-- `WebHdfs.rename(old, new)`: build the RENAME request with the encoded
destination, then check `result["boolean"]`; a falsy value raises
`IOError("Rename failed: %s -> %s" % (old, new))`. -/
def rename (user old new : String) (result : PyVal) :
    List Request × Except PyExc Unit :=
  let o := encode_fs_path (normpath old)
  let n := encode_fs_path (normpath new)
  let params := _getparams user ++ [("op", "RENAME"), ("destination", n)]
  ([⟨"PUT", "", o, params, none, true⟩],
    match result.subscript "boolean" with
    | .error e => .error e
    | .ok b =>
      if b.truthy then .ok ()
      else .error (.ioError none ("Rename failed: " ++ o ++ " -> " ++ n)))

/-- `WebHdfs.mkdir(path, mode)`: build the MKDIRS request (with normalized
permission when a mode is given), then test `if not success:` where `success`
is the whole decoded response — Python truthiness of the response value, NOT
of its `"boolean"` field. -/
def mkdir (user path : String) (mode : Option PyNumOrStr) (success : PyVal) :
    List Request × Except PyExc Unit :=
  let p := encode_fs_path (normpath path)
  let params := _getparams user ++ [("op", "MKDIRS")] ++
    (match mode with
     | some m => [("permission", safe_octal m)]
     | none => [])
  ([⟨"PUT", "", p, params, none, true⟩],
    if success.truthy then .ok ()
    else .error (.ioError none ("Mkdir failed: " ++ p)))

end WebHdfs

/-- Modelled from the spec: the decoded `FileStatus` JSON object consumed by
`WebHdfsStat` (hadoop/fs/webhdfs_types.py, not under src/).  §3 RemoteEntryStat
fields: type (file|directory), length, owner, group, permission bits,
modification/access timestamps, replication factor, block size. -/
structure FileStatusJson where
  type : String
  length : Nat
  owner : String
  group : String
  permission : String
  modificationTime : Nat
  accessTime : Nat
  replication : Nat
  blockSize : Nat
deriving DecidableEq, Repr

/-- Modelled from the spec: `WebHdfsStat` (hadoop/fs/webhdfs_types.py, not
under src/), the immutable value object built from one decoded `FileStatus`
response together with the request path; `isDir` discriminates the
file|directory type. -/
structure WebHdfsStat where
  path : String
  isDir : Bool
  length : Nat
  owner : String
  group : String
  permission : String
  modificationTime : Nat
  accessTime : Nat
  replication : Nat
  blockSize : Nat
deriving DecidableEq, Repr

/-- Modelled from the spec: construction of a `WebHdfsStat` from one decoded
server response (§3: "constructed from a single decoded server response"). -/
def WebHdfsStat.ofJson (js : FileStatusJson) (path : String) : WebHdfsStat :=
  ⟨path, js.type = "DIRECTORY", js.length, js.owner, js.group, js.permission,
    js.modificationTime, js.accessTime, js.replication, js.blockSize⟩

/-- The server side of a GETFILESTATUS dispatch: what `self._root.get(path,
params)` produces for a request — the decoded `FileStatus` object on success,
or the `WebHdfsException` the call raises. -/
def StatServer : Type := Request → Except WebHdfsException FileStatusJson

namespace WebHdfs

/-- The GETFILESTATUS request `_stats` issues for a path: the encoded
normalized path with params `{"user.name": user, "op": "GETFILESTATUS"}`. -/
def statRequest (user path : String) : Request :=
  ⟨"GET", "", encode_fs_path (normpath path),
    _getparams user ++ [("op", "GETFILESTATUS")], none, true⟩

/-- `WebHdfs._stats(path)`: issue one GETFILESTATUS call; on success wrap the
`FileStatus` in a `WebHdfsStat`; on a `WebHdfsException` whose `server_exc`
is `"FileNotFoundException"` return `None`; re-raise any other exception
unchanged.  Returns the issued requests and the outcome. -/
def _stats (server : StatServer) (user path : String) :
    List Request × Except WebHdfsException (Option WebHdfsStat) :=
  let req := statRequest user path
  ([req],
    match server req with
    | .ok js => .ok (some (WebHdfsStat.ofJson js (encode_fs_path (normpath path))))
    | .error ex =>
      if ex.server_exc = some "FileNotFoundException" then .ok none
      else .error ex)

/-- `WebHdfs.stats(path)`: `_stats`, raising `IOError(errno.ENOENT, "File %s
not found" % path)` when the entry is absent. -/
def stats (server : StatServer) (user path : String) :
    List Request × Except PyExc WebHdfsStat :=
  let (t, r) := _stats server user path
  (t,
    match r with
    | .error ex => .error (.webhdfs ex)
    | .ok (some res) => .ok res
    | .ok none => .error (.ioError (some ENOENT) ("File " ++ path ++ " not found")))

/-- `WebHdfs.exists(path)`: `self._stats(path) is not None`. -/
def «exists» (server : StatServer) (user path : String) :
    List Request × Except PyExc Bool :=
  let (t, r) := _stats server user path
  (t,
    match r with
    | .error ex => .error (.webhdfs ex)
    | .ok o => .ok o.isSome)

/-- `WebHdfs.isdir(path)`: one `_stats` call; `False` when absent, else the
entry's `isDir`. -/
def isdir (server : StatServer) (user path : String) :
    List Request × Except PyExc Bool :=
  let (t, r) := _stats server user path
  (t,
    match r with
    | .error ex => .error (.webhdfs ex)
    | .ok none => .ok false
    | .ok (some sb) => .ok sb.isDir)

/-- `WebHdfs.isfile(path)`: one `_stats` call; `False` when absent, else the
negation of the entry's `isDir`. -/
def isfile (server : StatServer) (user path : String) :
    List Request × Except PyExc Bool :=
  let (t, r) := _stats server user path
  (t,
    match r with
    | .error ex => .error (.webhdfs ex)
    | .ok none => .ok false
    | .ok (some sb) => .ok (!sb.isDir))

/-- `WebHdfs.listdir_stats(path, glob)`: the LISTSTATUS request it dispatches —
a fresh `_getparams` mapping, the optional `filter` field, then the op code
(the decoding of the `FileStatuses` response list is not needed by any claim).
-/
def listdir_stats_request (user path : String) (glob : Option String) : Request :=
  let params := _getparams user
  let params := match glob with
    | some g => params ++ [("filter", g)]
    | none => params
  ⟨"GET", "", encode_fs_path (normpath path), params ++ [("op", "LISTSTATUS")], none, true⟩

/-- Outcome of the primary (first-leg) invoke of `_invoke_with_redirect`, as
produced by the external transport: a normal return, or a raised
`WebHdfsException`. -/
inductive FirstLeg where
  | success
  | failure (ex : WebHdfsException)
deriving DecidableEq, Repr

/-- What `_invoke_with_redirect` does after the primary call: issue the
described second-leg request (whose transport outcome is external and returned
to the caller), or raise an exception. -/
inductive RedirectOutcome where
  | secondLeg (req : Request)
  | raised (ex : WebHdfsException)
deriving DecidableEq, Repr

/-- `WebHdfs._get_redirect_url(webhdfs_ex)`: unwrap `get_parent_ex()`; raise
the original exception when there is no parent or the parent's code is not in
`(301, 302, 303, 307)`; otherwise return `headers.getheader("location")`
(which may be `None`).  The enclosing `except Exception` clause only re-raises
the same original exception. -/
def _get_redirect_url (ex : WebHdfsException) :
    Except WebHdfsException (Option String) :=
  match ex.parent with
  | none => .error ex
  | some http_error =>
    if http_error.code = 301 ∨ http_error.code = 302 ∨ http_error.code = 303
        ∨ http_error.code = 307
    then .ok http_error.location
    else .error ex

/-- `WebHdfs._invoke_with_redirect(method, path, params, data)`: the primary
call goes out without the payload; a `WebHdfsException` from it is fed to
`_get_redirect_url` (whose raise propagates); a missing `next_url` — primary
success, or a redirect without a location header — raises `WebHdfsException
("Failed to create ... HDFS did not return a redirect")`; otherwise a client
is made for `next_url` and the same method is invoked on it with the payload
and `json_decode=False`. -/
def _invoke_with_redirect (method path : String) (params : List (String × String))
    (data : Option String) (firstLeg : FirstLeg) : Request × RedirectOutcome :=
  let primary : Request := ⟨method, "", path, params, none, true⟩
  let next_url : Except WebHdfsException (Option String) :=
    match firstLeg with
    | .success => .ok none
    | .failure ex => _get_redirect_url ex
  (primary,
    match next_url with
    | .error ex => .raised ex
    | .ok none =>
      .raised ⟨"Failed to create \x27" ++ path ++
        "\x27. HDFS did not return a redirect", none, none⟩
    | .ok (some url) => .secondLeg ⟨method, url, "", [], data, false⟩)

/-- `WebHdfs.create(path, overwrite, blocksize, replication, permission,
data)`: build the CREATE parameter set and run the redirect-write protocol
with method PUT. -/
def create (user path : String) (overwrite : Bool) (blocksize replication : Option Nat)
    (permission : Option PyNumOrStr) (data : Option String) (firstLeg : FirstLeg) :
    Request × RedirectOutcome :=
  let p := encode_fs_path (normpath path)
  let params := _getparams user ++
    [("op", "CREATE"), ("overwrite", if overwrite then "true" else "false")] ++
    (match blocksize with | some b => [("blocksize", toString b)] | none => []) ++
    (match replication with | some r => [("replication", toString r)] | none => []) ++
    (match permission with | some m => [("permission", safe_octal m)] | none => [])
  _invoke_with_redirect "PUT" p params data firstLeg

/-- `WebHdfs.append(path, data)`: build the APPEND parameter set and run the
redirect-write protocol with method POST. -/
def append (user path : String) (data : Option String) (firstLeg : FirstLeg) :
    Request × RedirectOutcome :=
  let p := encode_fs_path (normpath path)
  let params := _getparams user ++ [("op", "APPEND")]
  _invoke_with_redirect "POST" p params data firstLeg

end WebHdfs

namespace File

/-- The body of the `try` block of `File.__init__`: `fs.stats(path)` (which
raises `IOError(ENOENT)` when absent), then an explicit
`raise IOError(errno.EISDIR, "Is a directory: ...")` when the entry is a
directory. -/
def initTryBlock (server : StatServer) (user path : String) :
    Except PyExc WebHdfsStat :=
  match (WebHdfs.stats server user path).snd with
  | .error e => .error e
  | .ok st =>
    if st.isDir then
      .error (.ioError (some EISDIR) ("Is a directory: \x27" ++ path ++ "\x27"))
    else .ok st

/-- `File.__init__(fs, path, mode)`: run the `try` block; its `except IOError`
clause re-raises only when `ex.errno == errno.ENOENT and mode == "r"`, and
otherwise swallows the error and leaves `self._stat = None`.  The result is
the constructed handle's `_stat` field (`none` when no prior remote entry was
recorded), or the exception construction raises. -/
def init (server : StatServer) (user path mode : String) :
    Except PyExc (Option WebHdfsStat) :=
  match initTryBlock server user path with
  | .ok st => .ok (some st)
  | .error (.ioError eo msg) =>
    if eo = some ENOENT ∧ mode = "r" then .error (.ioError eo msg)
    else .ok none
  | .error e => .error e

end File

/-- The structured boolean response body `{"boolean": b}` the server sends for
DELETE, RENAME and MKDIRS. -/
def booleanResponse (b : Bool) : PyVal :=
  .vDict [("boolean", .vBool b)]

/-- Every character `octDigitsAux` pushes is an octal digit `'0'..'7'`. -/
theorem octDigitsAux_digits (fuel : Nat) : ∀ (n : Nat) (acc : List Char),
    (∀ c ∈ acc, '0' ≤ c ∧ c ≤ '7') →
    ∀ c ∈ octDigitsAux fuel n acc, '0' ≤ c ∧ c ≤ '7' := by
  induction fuel with
  | zero => intro n acc h c hc; exact h c (by simpa [octDigitsAux] using hc)
  | succ fuel ih =>
    intro n acc h c hc
    match n with
    | 0 => exact h c (by simpa [octDigitsAux] using hc)
    | m + 1 =>
      rw [show octDigitsAux (fuel + 1) (m + 1) acc
          = octDigitsAux fuel ((m + 1) / 8) (Char.ofNat (48 + (m + 1) % 8) :: acc)
        from rfl] at hc
      refine ih _ _ ?_ c hc
      intro d hd
      rcases List.mem_cons.mp hd with h1 | h2
      · subst h1
        have hk : (m + 1) % 8 < 8 := Nat.mod_lt _ (by norm_num)
        set k := (m + 1) % 8 with hkdef
        interval_cases k <;> exact ⟨by decide, by decide⟩
      · exact h d h2

/-- C3: for every delete (recursive or not) and every rename call whose
decoded response is the structured `{"boolean": false}` outcome, the operation
raises `IOError` ("Delete failed"/"Rename failed" — the spec's
`OperationFailed`) even though the HTTP call itself succeeded; with
`{"boolean": true}` no error is raised. -/
theorem claim_C3_delete_rename_boolean_outcome
    (user path old new : String) (recursive : Bool) :
    ((WebHdfs._delete user path recursive (booleanResponse false)).snd
        = .error (.ioError none ("Delete failed: " ++ encode_fs_path (normpath path))) ∧
      (WebHdfs.rename user old new (booleanResponse false)).snd
        = .error (.ioError none ("Rename failed: " ++ encode_fs_path (normpath old)
            ++ " -> " ++ encode_fs_path (normpath new)))) ∧
    ((WebHdfs._delete user path recursive (booleanResponse true)).snd = .ok () ∧
      (WebHdfs.rename user old new (booleanResponse true)).snd = .ok ()) :=
  ⟨⟨rfl, rfl⟩, ⟨rfl, rfl⟩⟩

/-- C4: evaluation of the code at the failing input.  `mkdir` against the
structured response `{"boolean": false}` raises nothing and returns normally:
the source tests `if not success:` on the whole decoded response dict, which
is non-empty and hence truthy in Python, instead of testing its `"boolean"`
field the way `_delete` and `rename` do. -/
theorem claim_C4_mkdir_false_boolean_not_translated :
    (WebHdfs.mkdir "hue_webui" "/newdir" none (booleanResponse false)).snd = .ok () :=
  rfl

/-- C8 counterexample: permission normalization does NOT map the numeric value
0755 (= 493) and the string "755" to the same transmitted value: the numeric
becomes "0755" (Python 2 `oct`) while the string is transmitted unchanged as
"755". -/
theorem claim_C8_counterexample :
    safe_octal (.str "755") ≠ safe_octal (.num 493) ∧
    safe_octal (.num 493) = "0755" ∧
    safe_octal (.str "755") = "755" ∧
    safe_octal (.str "0755") = "0755" := by
  exact ⟨by decide, by decide, rfl, rfl⟩

/-- C8 (amended): permission normalization maps the numeric value 0755 and the
string "0755" to the same transmitted value "0755", while an already-string
representation is transmitted unchanged (so "755" stays "755"); in general it
accepts either a numeric or a string representation, strings pass through
as-is, and a numeric produces the Python-2 octal string: a leading '0'
followed by octal digits, i.e. every transmitted character is in '0'..'7'. -/
theorem claim_C8_safe_octal_normalization :
    safe_octal (.num 493) = "0755" ∧
    safe_octal (.str "0755") = "0755" ∧
    (∀ s, safe_octal (.str s) = s) ∧
    (∀ n, ∀ c ∈ (safe_octal (.num n)).toList, '0' ≤ c ∧ c ≤ '7') := by
  refine ⟨by decide, rfl, fun s => rfl, ?_⟩
  intro n c hc
  by_cases h : n = 0
  · subst h
    have he0 : (safe_octal (PyNumOrStr.num 0)).toList = ['0'] := rfl
    rw [he0] at hc
    have hc0 : c = '0' := by simpa using hc
    subst hc0
    exact ⟨by decide, by decide⟩
  · have he : (safe_octal (.num n)).toList = '0' :: octDigitsAux n n [] := by
      simp only [safe_octal, pyOct, if_neg h]
      rfl
    rw [he] at hc
    rcases List.mem_cons.mp hc with h1 | h2
    · subst h1; exact ⟨le_refl _, by decide⟩
    · exact octDigitsAux_digits n n []
        (fun d hd => absurd hd (List.not_mem_nil d)) c h2

/-- Witness for C8 (amended) at concrete inputs: the string "rwx" passes
through unchanged, and the character '7' of `safe_octal` of the numeric 7
(= "07") is an octal digit. -/
theorem claim_C8_safe_octal_normalization_witness :
    safe_octal (.str "rwx") = "rwx" ∧ ('0' ≤ '7' ∧ '7' ≤ '7') := by
  have h := claim_C8_safe_octal_normalization
  exact ⟨h.2.2.1 "rwx", h.2.2.2 7 '7' (by decide)⟩

/-- C1: for every create (PUT) or append (POST) call whose primary first-leg
request fails with a recognized redirect status (301, 302, 303 or 307)
carrying a location header, the protocol issues exactly one second-leg call
with the same HTTP method against the redirect target URL verbatim, attaching
the payload body, with response decoding disabled; the first leg's redirect
failure is not surfaced to the caller as an error. -/
theorem claim_C1_redirect_write_second_leg
    (user path : String) (overwrite : Bool) (blocksize replication : Option Nat)
    (permission : Option PyNumOrStr) (data : Option String)
    (ex : WebHdfsException) (http : HttpError) (loc : String)
    (hp : ex.parent = some http)
    (hc : http.code = 301 ∨ http.code = 302 ∨ http.code = 303 ∨ http.code = 307)
    (hl : http.location = some loc) :
    (WebHdfs.create user path overwrite blocksize replication permission data
        (.failure ex)).snd = .secondLeg ⟨"PUT", loc, "", [], data, false⟩ ∧
    (WebHdfs.append user path data (.failure ex)).snd
      = .secondLeg ⟨"POST", loc, "", [], data, false⟩ := by
  constructor <;>
    simp only [WebHdfs.create, WebHdfs.append, WebHdfs._invoke_with_redirect,
      WebHdfs._get_redirect_url, hp, if_pos hc, hl]

/-- Witness for C1: a concrete create and append against a 307 failure whose
location is a datanode URL issue the second leg with that URL, the payload
and decoding disabled. -/
theorem claim_C1_redirect_write_second_leg_witness :
    (WebHdfs.create "hue_webui" "/a/b.txt" false none none none (some "hi")
        (.failure ⟨"307", some ⟨307, some "http://dn:1006/webhdfs/v1/a/b.txt?op=CREATE"⟩,
          none⟩)).snd
      = .secondLeg ⟨"PUT", "http://dn:1006/webhdfs/v1/a/b.txt?op=CREATE", "", [],
          some "hi", false⟩ ∧
    (WebHdfs.append "hue_webui" "/a/b.txt" (some "hi")
        (.failure ⟨"307", some ⟨307, some "http://dn:1006/webhdfs/v1/a/b.txt?op=CREATE"⟩,
          none⟩)).snd
      = .secondLeg ⟨"POST", "http://dn:1006/webhdfs/v1/a/b.txt?op=CREATE", "", [],
          some "hi", false⟩ :=
  claim_C1_redirect_write_second_leg "hue_webui" "/a/b.txt" false none none none (some "hi")
    _ _ _ rfl (Or.inr (Or.inr (Or.inr rfl))) rfl

/-- C2: for every create or append call, a primary failure that is not a
recognized redirect (no parent HTTP error, or a parent status outside
301/302/303/307) propagates to the caller unchanged and no second leg is
issued; and a primary request that unexpectedly succeeds raises the
`WebHdfsException` "Failed to create ... HDFS did not return a redirect"
(the spec's `ProtocolError`). -/
theorem claim_C2_non_redirect_propagates_success_raises
    (user path : String) (overwrite : Bool) (blocksize replication : Option Nat)
    (permission : Option PyNumOrStr) (data : Option String) :
    (∀ ex : WebHdfsException,
        (∀ http, ex.parent = some http →
          ¬(http.code = 301 ∨ http.code = 302 ∨ http.code = 303 ∨ http.code = 307)) →
        (WebHdfs.create user path overwrite blocksize replication permission data
            (.failure ex)).snd = .raised ex ∧
        (WebHdfs.append user path data (.failure ex)).snd = .raised ex) ∧
    ((WebHdfs.create user path overwrite blocksize replication permission data
        .success).snd
      = .raised ⟨"Failed to create \x27" ++ encode_fs_path (normpath path) ++
          "\x27. HDFS did not return a redirect", none, none⟩ ∧
      (WebHdfs.append user path data .success).snd
      = .raised ⟨"Failed to create \x27" ++ encode_fs_path (normpath path) ++
          "\x27. HDFS did not return a redirect", none, none⟩) := by
  refine ⟨?_, rfl, rfl⟩
  intro ex hnr
  constructor <;>
    cases hpe : ex.parent with
    | none =>
      simp only [WebHdfs.create, WebHdfs.append, WebHdfs._invoke_with_redirect,
        WebHdfs._get_redirect_url, hpe]
    | some http =>
      simp only [WebHdfs.create, WebHdfs.append, WebHdfs._invoke_with_redirect,
        WebHdfs._get_redirect_url, hpe, if_neg (hnr http hpe)]

/-- Witness for C2: a 403 failure (no redirect) propagates unchanged out of
create, and an unexpectedly successful primary append raises the
"did not return a redirect" exception. -/
theorem claim_C2_non_redirect_propagates_success_raises_witness :
    (WebHdfs.create "hue_webui" "/a" false none none none (some "x")
        (.failure ⟨"denied", some ⟨403, none⟩, some "AccessControlException"⟩)).snd
      = .raised ⟨"denied", some ⟨403, none⟩, some "AccessControlException"⟩ ∧
    (WebHdfs.append "hue_webui" "/a" (some "x") .success).snd
      = .raised ⟨"Failed to create \x27/a\x27. HDFS did not return a redirect",
          none, none⟩ := by
  have h := claim_C2_non_redirect_propagates_success_raises
    "hue_webui" "/a" false none none none (some "x")
  refine ⟨(h.1 _ ?_).1, h.2.2⟩
  intro http hh
  cases hh
  decide

/-- C5: `stats` returns the remote entry's metadata when the server reports
the entry and raises `IOError(ENOENT)` (the spec's `NotFound`) when the server
reports absence; `exists` returns true iff `stats` would not signal NotFound;
and `exists`, `isdir` and `isfile` each issue exactly the single
existence-suppressing GETFILESTATUS request and no second request. -/
theorem claim_C5_stats_exists_single_stat
    (server : StatServer) (user path : String) :
    (∀ js, server (WebHdfs.statRequest user path) = .ok js →
        (WebHdfs.stats server user path).snd
          = .ok (WebHdfsStat.ofJson js (encode_fs_path (normpath path)))) ∧
    (∀ ex, server (WebHdfs.statRequest user path) = .error ex →
        ex.server_exc = some "FileNotFoundException" →
        (WebHdfs.stats server user path).snd
          = .error (.ioError (some ENOENT) ("File " ++ path ++ " not found"))) ∧
    (∀ b, (WebHdfs.«exists» server user path).snd = .ok b →
        (b = true ↔ (WebHdfs.stats server user path).snd
          ≠ .error (.ioError (some ENOENT) ("File " ++ path ++ " not found")))) ∧
    ((WebHdfs.«exists» server user path).fst = [WebHdfs.statRequest user path] ∧
      (WebHdfs.isdir server user path).fst = [WebHdfs.statRequest user path] ∧
      (WebHdfs.isfile server user path).fst = [WebHdfs.statRequest user path] ∧
      (WebHdfs.stats server user path).fst = [WebHdfs.statRequest user path]) := by
  refine ⟨?_, ?_, ?_, rfl, rfl, rfl, rfl⟩
  · intro js hjs
    simp only [WebHdfs.stats, WebHdfs._stats, hjs]
  · intro ex hex hfnf
    simp only [WebHdfs.stats, WebHdfs._stats, hex, if_pos hfnf]
  · intro b hb
    cases hs : server (WebHdfs.statRequest user path) with
    | ok js =>
      simp only [WebHdfs.«exists», WebHdfs._stats, hs, Option.isSome] at hb
      simp only [WebHdfs.stats, WebHdfs._stats, hs]
      cases hb
      simp
    | error ex =>
      by_cases hfnf : ex.server_exc = some "FileNotFoundException"
      · simp only [WebHdfs.«exists», WebHdfs._stats, hs, if_pos hfnf, Option.isSome] at hb
        simp only [WebHdfs.stats, WebHdfs._stats, hs, if_pos hfnf]
        cases hb
        simp
      · simp only [WebHdfs.«exists», WebHdfs._stats, hs, if_neg hfnf] at hb
        exact absurd hb (by simp)

/-- Witness for C5 at concrete servers: a present file entry is returned by
`stats`, an absent one raises `IOError(ENOENT)`, and `exists` answers true
for the present entry; each derived call issued the single stat request. -/
theorem claim_C5_stats_exists_single_stat_witness :
    (WebHdfs.stats (fun _ => .ok ⟨"FILE", 2, "o", "g", "644", 0, 0, 1, 64⟩) "u" "/a/b.txt").snd
      = .ok ⟨"/a/b.txt", false, 2, "o", "g", "644", 0, 0, 1, 64⟩ ∧
    (WebHdfs.stats (fun _ => .error ⟨"nf", none, some "FileNotFoundException"⟩) "u" "/missing").snd
      = .error (.ioError (some ENOENT) "File /missing not found") ∧
    (true = true ↔ (WebHdfs.stats (fun _ => .ok ⟨"FILE", 2, "o", "g", "644", 0, 0, 1, 64⟩)
        "u" "/a/b.txt").snd ≠ .error (.ioError (some ENOENT) "File /a/b.txt not found")) ∧
    (WebHdfs.isdir (fun _ => .ok ⟨"FILE", 2, "o", "g", "644", 0, 0, 1, 64⟩) "u" "/a/b.txt").fst
      = [WebHdfs.statRequest "u" "/a/b.txt"] := by
  have h1 := claim_C5_stats_exists_single_stat
    (fun _ => .ok ⟨"FILE", 2, "o", "g", "644", 0, 0, 1, 64⟩) "u" "/a/b.txt"
  have h2 := claim_C5_stats_exists_single_stat
    (fun _ => .error ⟨"nf", none, some "FileNotFoundException"⟩) "u" "/missing"
  exact ⟨h1.1 _ rfl, h2.2.1 _ rfl rfl, h1.2.2.1 true rfl, h1.2.2.2.2.1⟩

/-- C6: the existence-suppressing `_stats` converts exactly the server-reported
exception name "FileNotFoundException" into the absence result `None`; a stat
failure carrying any other server exception class propagates unchanged. -/
theorem claim_C6_stats_suppresses_only_fnf
    (server : StatServer) (user path : String) (ex : WebHdfsException)
    (h : server (WebHdfs.statRequest user path) = .error ex) :
    ((WebHdfs._stats server user path).snd = .ok none
        ↔ ex.server_exc = some "FileNotFoundException") ∧
    (ex.server_exc ≠ some "FileNotFoundException" →
      (WebHdfs._stats server user path).snd = .error ex) := by
  by_cases hfnf : ex.server_exc = some "FileNotFoundException"
  · refine ⟨⟨fun _ => hfnf, fun _ => ?_⟩, fun hne => absurd hfnf hne⟩
    simp only [WebHdfs._stats, h, if_pos hfnf]
  · have he : (WebHdfs._stats server user path).snd = .error ex := by
      simp only [WebHdfs._stats, h, if_neg hfnf]
    refine ⟨⟨fun hok => ?_, fun hf => absurd hf hfnf⟩, fun _ => he⟩
    rw [he] at hok
    exact absurd hok (by simp)

/-- Witness for C6: a FileNotFoundException stat failure is suppressed into
`None`, while an AccessControlException stat failure propagates unchanged. -/
theorem claim_C6_stats_suppresses_only_fnf_witness :
    (WebHdfs._stats (fun _ => .error ⟨"nf", none, some "FileNotFoundException"⟩) "u" "/x").snd
      = .ok none ∧
    (WebHdfs._stats (fun _ => .error ⟨"denied", none, some "AccessControlException"⟩)
        "u" "/x").snd
      = .error ⟨"denied", none, some "AccessControlException"⟩ := by
  have h1 := claim_C6_stats_suppresses_only_fnf
    (fun _ => .error ⟨"nf", none, some "FileNotFoundException"⟩) "u" "/x" _ rfl
  have h2 := claim_C6_stats_suppresses_only_fnf
    (fun _ => .error ⟨"denied", none, some "AccessControlException"⟩) "u" "/x" _ rfl
  exact ⟨h1.1.mpr rfl, h2.2 (by decide)⟩

/-- C7: `isdir` and `isfile` are never both true, and both answer false
exactly when the path is absent, i.e. when the existence-suppressing `_stats`
returns no entry. -/
theorem claim_C7_isdir_isfile_exclusive
    (server : StatServer) (user path : String) :
    ¬((WebHdfs.isdir server user path).snd = .ok true ∧
        (WebHdfs.isfile server user path).snd = .ok true) ∧
    (((WebHdfs.isdir server user path).snd = .ok false ∧
        (WebHdfs.isfile server user path).snd = .ok false)
      ↔ (WebHdfs._stats server user path).snd = .ok none) := by
  cases hs : server (WebHdfs.statRequest user path) with
  | ok js =>
    simp only [WebHdfs.isdir, WebHdfs.isfile, WebHdfs._stats, hs]
    cases hd : (WebHdfsStat.ofJson js (encode_fs_path (normpath path))).isDir <;>
      simp [hd]
  | error ex =>
    by_cases hfnf : ex.server_exc = some "FileNotFoundException"
    · simp only [WebHdfs.isdir, WebHdfs.isfile, WebHdfs._stats, hs, if_pos hfnf]
      exact ⟨by rintro ⟨h1, _⟩; simp at h1, by simp⟩
    · simp only [WebHdfs.isdir, WebHdfs.isfile, WebHdfs._stats, hs, if_neg hfnf]
      exact ⟨by rintro ⟨h1, _⟩; simp at h1, by simp⟩

/-- Witness for C7 at a concrete directory server: the instantiated mutual
exclusion and absence characterization. -/
theorem claim_C7_isdir_isfile_exclusive_witness :
    ¬((WebHdfs.isdir (fun _ => .ok ⟨"DIRECTORY", 0, "o", "g", "755", 0, 0, 0, 0⟩)
          "u" "/d").snd = .ok true ∧
        (WebHdfs.isfile (fun _ => .ok ⟨"DIRECTORY", 0, "o", "g", "755", 0, 0, 0, 0⟩)
          "u" "/d").snd = .ok true) ∧
    (((WebHdfs.isdir (fun _ => .ok ⟨"DIRECTORY", 0, "o", "g", "755", 0, 0, 0, 0⟩)
          "u" "/d").snd = .ok false ∧
        (WebHdfs.isfile (fun _ => .ok ⟨"DIRECTORY", 0, "o", "g", "755", 0, 0, 0, 0⟩)
          "u" "/d").snd = .ok false)
      ↔ (WebHdfs._stats (fun _ => .ok ⟨"DIRECTORY", 0, "o", "g", "755", 0, 0, 0, 0⟩)
          "u" "/d").snd = .ok none) :=
  claim_C7_isdir_isfile_exclusive
    (fun _ => .ok ⟨"DIRECTORY", 0, "o", "g", "755", 0, 0, 0, 0⟩) "u" "/d"

/-- C9: every dispatched call builds a fresh parameter mapping from
`_getparams` containing the active identity under `user.name` and the
operation code under `op` (shown for the listdir, stat, delete, rename, mkdir
and the primary create/append requests); a call without a glob carries no
`filter` field left over from any other call, and parameter sets built for
different identities differ and each report only their own identity. -/
theorem claim_C9_fresh_params_identity_and_op
    (u u2 path path2 old new : String) (glob glob2 : Option String)
    (recursive : Bool) (mode : Option PyNumOrStr) (overwrite : Bool)
    (blocksize replication : Option Nat) (permission : Option PyNumOrStr)
    (data : Option String) (firstLeg : WebHdfs.FirstLeg) (result : PyVal) :
    ((WebHdfs.listdir_stats_request u path glob).params.lookup "user.name" = some u ∧
      (WebHdfs.listdir_stats_request u path glob).params.lookup "op" = some "LISTSTATUS") ∧
    ((WebHdfs.statRequest u path).params.lookup "user.name" = some u ∧
      (WebHdfs.statRequest u path).params.lookup "op" = some "GETFILESTATUS") ∧
    ((WebHdfs._delete u path recursive result).fst.map
        (fun r => (r.params.lookup "user.name", r.params.lookup "op"))
      = [(some u, some "DELETE")]) ∧
    ((WebHdfs.rename u old new result).fst.map
        (fun r => (r.params.lookup "user.name", r.params.lookup "op"))
      = [(some u, some "RENAME")]) ∧
    ((WebHdfs.mkdir u path mode result).fst.map
        (fun r => (r.params.lookup "user.name", r.params.lookup "op"))
      = [(some u, some "MKDIRS")]) ∧
    ((WebHdfs.create u path overwrite blocksize replication permission data
        firstLeg).fst.params.lookup "user.name" = some u ∧
      (WebHdfs.create u path overwrite blocksize replication permission data
        firstLeg).fst.params.lookup "op" = some "CREATE") ∧
    ((WebHdfs.append u path data firstLeg).fst.params.lookup "user.name" = some u ∧
      (WebHdfs.append u path data firstLeg).fst.params.lookup "op" = some "APPEND") ∧
    ((WebHdfs.listdir_stats_request u path none).params.lookup "filter" = none) ∧
    (u ≠ u2 →
      (WebHdfs.listdir_stats_request u path glob).params
        ≠ (WebHdfs.listdir_stats_request u2 path2 glob2).params) := by
  refine ⟨⟨?_, ?_⟩, ⟨rfl, rfl⟩, rfl, rfl, ?_, ⟨rfl, rfl⟩, ⟨rfl, rfl⟩, rfl, ?_⟩
  · cases glob <;> rfl
  · cases glob <;> rfl
  · cases mode <;> rfl
  · intro hne heq
    have h1 : (WebHdfs.listdir_stats_request u path glob).params.lookup "user.name"
        = some u := by cases glob <;> rfl
    have h2 : (WebHdfs.listdir_stats_request u2 path2 glob2).params.lookup "user.name"
        = some u2 := by cases glob2 <;> rfl
    rw [heq, h2] at h1
    exact hne (Option.some.inj h1).symm

/-- Witness for C9 at concrete calls: the listdir request of user "alice"
with a glob and the listdir request of user "bob" without one carry their own
identities and the op code, no `filter` leaks into the glob-less call, and the
two parameter sets differ. -/
theorem claim_C9_fresh_params_identity_and_op_witness :
    ((WebHdfs.listdir_stats_request "alice" "/a" (some "*.txt")).params.lookup "user.name"
        = some "alice" ∧
      (WebHdfs.listdir_stats_request "alice" "/a" (some "*.txt")).params.lookup "op"
        = some "LISTSTATUS") ∧
    ((WebHdfs.listdir_stats_request "alice" "/a" none).params.lookup "filter" = none) ∧
    ((WebHdfs.listdir_stats_request "alice" "/a" (some "*.txt")).params
      ≠ (WebHdfs.listdir_stats_request "bob" "/b" none).params) := by
  have h := claim_C9_fresh_params_identity_and_op "alice" "bob" "/a" "/b" "/o" "/n"
    (some "*.txt") none false none false none none none none .success (booleanResponse true)
  exact ⟨h.1, h.2.2.2.2.2.2.2.1, h.2.2.2.2.2.2.2.2 (by decide)⟩

/-- C10: evaluation of the code at the failing input.  Constructing a
sequential file handle in read mode over an existing DIRECTORY entry does NOT
fail: the explicit `IOError(errno.EISDIR, ...)` raised inside the
constructor's `try` block is caught by the constructor's own `except IOError`
clause, whose re-raise condition requires `errno == ENOENT`, so construction
succeeds with `_stat = None`.  The remaining parts of the claim do hold on
the code: a read-mode handle over an absent path fails at construction with
`IOError(ENOENT)`, and a write-mode handle over an absent path is constructed
recording no prior remote entry. -/
theorem claim_C10_file_init_read_mode_directory :
    File.init (fun _ => .ok ⟨"DIRECTORY", 0, "o", "g", "755", 0, 0, 0, 0⟩) "u" "/d" "r"
      = .ok none ∧
    File.init (fun _ => .error ⟨"nf", none, some "FileNotFoundException"⟩) "u" "/d" "r"
      = .error (.ioError (some ENOENT) "File /d not found") ∧
    File.init (fun _ => .error ⟨"nf", none, some "FileNotFoundException"⟩) "u" "/d" "w"
      = .ok none := by
  exact ⟨rfl, rfl, rfl⟩

end WebHdfsModel
